import Mathlib

/-!
Shallow embedding of `server/app/auth.go` (navidrome authentication subsystem):
the login handler, the first-admin creation handler, the token-validation
middleware and their helpers, together with proofs of the specified properties.

The external user store is modelled as a record of operations over an abstract
state type; a concrete list-backed store instantiates it for scenario proofs.
The token codec (`engine/auth`, not part of the analysed sources) is modelled
from the spec.
-/

namespace Navidrome

/-- The user identity record (`model.User`): generated ID, unique username,
display name, optional email, stored password, admin flag and a nullable
last-login timestamp (modelled as `Option Nat`). -/
structure User where
  id : String
  userName : String
  name : String
  email : String
  password : String
  isAdmin : Bool
  lastLoginAt : Option Nat
deriving DecidableEq, Repr

/-- Errors a store lookup can produce: `model.ErrNotFound` or any other
infrastructure error (carrying its message). -/
inductive FindErr
| notFound
| other (msg : String)
deriving DecidableEq, Repr

/-- The user repository interface consumed by the auth core
(`model.UserRepository` / `model.DataStore`): find-by-username, count-all,
create (`Put`) and update-last-login, over an abstract store state `σ`.
Mutating operations return the new state; reads leave the state unchanged. -/
structure UserRepo (σ : Type) where
  findByUsername : σ → String → Except FindErr User
  countAll : σ → Except String Nat
  put : σ → User → Except String σ
  updateLastLoginAt : σ → String → Except String σ

/-- A value held in the token claims mapping (`jwt.MapClaims` stores
`interface\x7b\x7d`; the subject is expected to be a string but nothing
enforces it). -/
inductive ClaimValue
| str (s : String)
| num (n : Int)
deriving DecidableEq, Repr

/-- A parsed bearer token (`jwt.Token`): the `Valid` flag (set by the jwt
library when signature verification succeeds and the claims, expiry included,
validate), the claims mapping, and the raw serialized string. -/
structure Token where
  valid : Bool
  claims : List (String × ClaimValue)
  raw : String
deriving DecidableEq, Repr

/-- Lookup of a claim by key in the claims mapping; `none` models a Go map
access returning `nil` for an absent key. -/
def lookupClaim (claims : List (String × ClaimValue)) (k : String) : Option ClaimValue :=
  match claims.find? (fun p => p.1 == k) with
  | some p => some p.2
  | none => none

/-- Result of `jwtauth.FromContext`: the parse/verification error, if any,
and the parsed token, if any. -/
structure JwtContext where
  err : Option String
  token : Option Token
deriving DecidableEq, Repr

/-- The HTTP responses the handlers produce: `err` is
`rest.RespondWithError status message`, `okLogin` is the 200 login success
JSON, and `msg` is `rest.RespondWithJSON status` with a message body (used
for the bootstrap-required 401). -/
inductive Response
| err (status : Nat) (message : String)
| okLogin (message : String) (token : String) (name : String)
    (username : String) (isAdmin : Bool)
| msg (status : Nat) (message : String)
deriving DecidableEq, Repr

/-- Outcome of the `Authenticator` middleware on one request: an immediate
response (rejection), forwarding to the next handler with the refreshed
token set on the `Authorization` header and the resolved user bound in the
request context, or a runtime type failure (the unchecked
`claims["sub"].(string)` cast failing). -/
inductive AuthOutcome
| respond (r : Response)
| forward (authHeader : String) (ctxUser : Option User)
| castFailure
deriving DecidableEq, Repr

/-- `validateLogin` (`auth.go:131-147`): not-found collapses to
`(nil, nil)`; other lookup errors propagate; a password mismatch collapses
to `(nil, nil)`; on a match the last-login update runs (its failure is
logged and ignored) and the user is returned. The returned `σ` is the store
state after the call. -/
def validateLogin {σ : Type} (repo : UserRepo σ) (s : σ)
    (userName password : String) : Except String (Option User) × σ :=
  match repo.findByUsername s userName with
  | .error .notFound => (.ok none, s)
  | .error (.other e) => (.error e, s)
  | .ok u =>
    if u.password ≠ password then
      (.ok none, s)
    else
      match repo.updateLastLoginAt s u.id with
      | .ok s₂ => (.ok (some u), s₂)
      | .error _ => (.ok (some u), s)

/-- Modelled from the spec: the token codec (`engine/auth`, outside the
analysed sources) signs a token whose subject claim is the username and
whose issued-at is the current time; distinct issued-at instants yield
distinct token strings. The encoding is injective in the issued-at
via the string length. -/
def signToken (sub : String) (iat : Nat) : String :=
  sub ++ ":" ++ String.mk (List.replicate iat 't')

/-- Modelled from the spec: `auth.CreateToken(user)` issues a token whose
subject is the username and issued-at the current time. -/
def createToken (now : Nat) (u : User) : Except String String :=
  .ok (signToken u.userName now)

/-- Modelled from the spec: `auth.TouchToken` re-signs an already valid
token with a refreshed issued-at, preserving the subject; it fails if the
input token is not structurally valid or its subject is not a string. -/
def touchToken (now : Nat) (t : Token) : Except String String :=
  match lookupClaim t.claims "sub" with
  | some (.str sub) => if t.valid then .ok (signToken sub now) else .error "invalid token"
  | _ => .error "invalid token"

/-- `handleLogin` (`auth.go:42-68`): validate credentials, then 500 on an
infrastructure error, 401 on absent user, otherwise issue a token and
respond 200 with the login body. -/
def handleLogin {σ : Type} (repo : UserRepo σ) (now : Nat) (s : σ)
    (username password : String) : Response × σ :=
  match validateLogin repo s username password with
  | (.error _, s₂) =>
    (.err 500 "Unknown error authentication user. Please try again", s₂)
  | (.ok none, s₂) =>
    (.err 401 "Invalid username or password", s₂)
  | (.ok (some user), s₂) =>
    match createToken now user with
    | .error _ =>
      (.err 500 "Unknown error authenticating user. Please try again", s₂)
    | .ok tokenString =>
      (.okLogin ("User \x27" ++ username ++ "\x27 authenticated successfully")
        tokenString user.name username user.isAdmin, s₂)

/-- Model of Go `strings.Title` as used on a username (external library
function; none of the verified properties inspect the display name). -/
def titleCase (s : String) : String :=
  s.capitalize

/-- `createDefaultUser` (`auth.go:111-129`): synthesizes the first admin
user (generated `id`, title-cased name, empty email, admin flag forced,
last-login set to now) and persists it. A `Put` failure is logged and then
DISCARDED: the function returns `nil` (here `.ok ()`) unconditionally, as
the source does. On a failed `Put` the store state is unchanged. -/
def createDefaultUser {σ : Type} (repo : UserRepo σ) (id : String) (now : Nat)
    (s : σ) (username password : String) : Except String Unit × σ :=
  let initialUser : User :=
    { id := id, userName := username, name := titleCase username, email := "",
      password := password, isAdmin := true, lastLoginAt := some now }
  match repo.put s initialUser with
  | .ok s₂ => (.ok (), s₂)
  | .error _ => (.ok (), s)

/-- `CreateAdmin` (`auth.go:86-108`), after credential extraction: 500 on a
count failure, 403 when a user already exists, otherwise create the default
user and (if that reported success) delegate to the login handler. -/
def createAdmin {σ : Type} (repo : UserRepo σ) (id : String) (now : Nat)
    (s : σ) (username password : String) : Response × σ :=
  match repo.countAll s with
  | .error e => (.err 500 e, s)
  | .ok c =>
    if c > 0 then
      (.err 403 "Cannot create another first admin", s)
    else
      match createDefaultUser repo id now s username password with
      | (.error e, s₂) => (.err 500 e, s₂)
      | (.ok _, s₂) => handleLogin repo now s₂ username password

/-- The error taxonomy of `getToken`: the `ErrFirstTime` sentinel
(`no users created`) or any other error. -/
inductive GetTokenErr
| firstTime
| other (msg : String)
deriving DecidableEq, Repr

/-- The `valid` boolean computed in `getToken` (`auth.go:158-159`): no
extraction error, token present with its `Valid` flag set, and the `sub`
claim present (a presence check — an empty-string subject passes). -/
def tokenCheckOk (ctx : JwtContext) : Bool :=
  (ctx.err == none) &&
    (match ctx.token with
     | some t => t.valid && (lookupClaim t.claims "sub").isSome
     | none => false)

/-- The failure tail of `getToken` (`auth.go:164-169`): a fresh count query;
`firstTime` only when the count succeeded and is zero, otherwise the generic
`invalid authentication` error (a count error is discarded). -/
def getTokenFallback {σ : Type} (repo : UserRepo σ) (s : σ) :
    Except GetTokenErr Token :=
  match repo.countAll s with
  | .ok 0 => .error .firstTime
  | _ => .error (.other "invalid authentication")

/-- `getToken` (`auth.go:155-170`): return the token when the validity
check passes, otherwise fall back to the first-time / invalid distinction. -/
def getToken {σ : Type} (repo : UserRepo σ) (s : σ) (ctx : JwtContext) :
    Except GetTokenErr Token :=
  match ctx.token with
  | some t =>
    if tokenCheckOk ctx then .ok t else getTokenFallback repo s
  | none => getTokenFallback repo s

/-- Resolution of the subject to a user in `contextWithUser`
(`auth.go:151`): the lookup error is discarded; on any failure a nil user
is bound. -/
def resolveUser {σ : Type} (repo : UserRepo σ) (s : σ) (userName : String) :
    Option User :=
  match repo.findByUsername s userName with
  | .ok u => some u
  | .error _ => none

/-- `contextWithUser` (`auth.go:149-153`): extracts the subject claim via an
UNCHECKED cast to string — `none` models the runtime type failure (panic)
when the claim is absent or not a string — then binds the resolved user. -/
def contextWithUser {σ : Type} (repo : UserRepo σ) (s : σ)
    (claims : List (String × ClaimValue)) : Option (Option User) :=
  match lookupClaim claims "sub" with
  | some (.str userName) => some (resolveUser repo s userName)
  | _ => none

/-- The `Authenticator` middleware (`auth.go:176-199`), parameterized by the
refresh operation `tt` (`auth.TouchToken`): reject with the bootstrap body
or the generic 401; on a valid token build the user context (possible cast
failure), refresh the token (failure is a generic 401), then forward with
the refreshed token in the auth header. -/
def authenticator {σ : Type} (tt : Token → Except String String)
    (repo : UserRepo σ) (s : σ) (ctx : JwtContext) : AuthOutcome :=
  match getToken repo s ctx with
  | .error .firstTime => .respond (.msg 401 "no users created")
  | .error (.other _) => .respond (.err 401 "Not authenticated")
  | .ok token =>
    match contextWithUser repo s token.claims with
    | none => .castFailure
    | some ctxUser =>
      match tt token with
      | .error _ => .respond (.err 401 "Not authenticated")
      | .ok newTokenString => .forward newTokenString ctxUser

/-- The concrete list-backed store: usernames are looked up by equality,
count is the list length, `Put` appends, and the last-login update rewrites
the matching user's timestamp to `now`. -/
def listRepo (now : Nat) : UserRepo (List User) where
  findByUsername s n :=
    match s.find? (fun u => u.userName == n) with
    | some u => .ok u
    | none => .error .notFound
  countAll s := .ok s.length
  put s u := .ok (s ++ [u])
  updateLastLoginAt s id :=
    .ok (s.map (fun u => if u.id = id then { u with lastLoginAt := some now } else u))

/-- A store whose create operation always fails (exercises the
persistence-failure path of admin creation). -/
def failPutRepo : UserRepo Unit where
  findByUsername _ _ := .error .notFound
  countAll _ := .ok 0
  put _ _ := .error "db down"
  updateLastLoginAt _ _ := .ok ()

/-- A store whose lookup fails with an infrastructure error. -/
def failFindRepo : UserRepo Unit where
  findByUsername _ _ := .error (.other "connection refused")
  countAll _ := .ok 1
  put _ _ := .ok ()
  updateLastLoginAt _ _ := .ok ()

/-- A store whose count query fails. -/
def errCountRepo : UserRepo Unit where
  findByUsername _ _ := .error .notFound
  countAll _ := .error "count failed"
  put _ _ := .ok ()
  updateLastLoginAt _ _ := .ok ()

/-- A sample stored user for concrete scenarios. -/
def sampleUser : User :=
  { id := "id0", userName := "alice", name := "Alice", email := "",
    password := "secret", isAdmin := false, lastLoginAt := some 3 }

/-- A structurally valid token whose subject claim is the empty string. -/
def tkEmptySub : Token :=
  { valid := true, claims := [("sub", .str "")], raw := "tok-empty-sub" }

/-- A structurally valid token whose subject claim is a number, not a string. -/
def tkNumSub : Token :=
  { valid := true, claims := [("sub", .num 7)], raw := "tok-num-sub" }

/-- A valid token for `sampleUser`, signed at instant 0. -/
def tkGood : Token :=
  { valid := true, claims := [("sub", .str "alice")], raw := signToken "alice" 0 }

/-- The user record `createDefaultUser` synthesizes for a given generated id,
requested credentials and instant. -/
def firstAdmin (id username password : String) (now : Nat) : User :=
  { id := id, userName := username, name := titleCase username, email := "",
    password := password, isAdmin := true, lastLoginAt := some now }

/- ### Helper lemmas -/

/-- Length of a signed token: the issued-at is injectively encoded. -/
theorem signToken_length (sub : String) (iat : Nat) :
    (signToken sub iat).length = sub.length + 1 + iat := by
  simp [signToken, String.length_append, String.length_mk,
    (show String.length ":" = 1 from rfl)]

/-- Tokens signed for the same subject at distinct instants differ. -/
theorem signToken_ne_of_iat_ne (sub : String) (a b : Nat) (h : a ≠ b) :
    signToken sub a ≠ signToken sub b := by
  intro he
  apply h
  have hl := congrArg String.length he
  rw [signToken_length, signToken_length] at hl
  omega

/-- The failure tail of `getToken` never yields a token. -/
theorem getTokenFallback_ne_ok {σ : Type} (repo : UserRepo σ) (s : σ)
    (t : Token) : getTokenFallback repo s ≠ .ok t := by
  unfold getTokenFallback
  split <;> simp

/-- When the validity check fails, `getToken` runs its failure tail. -/
theorem getToken_eq_fallback {σ : Type} (repo : UserRepo σ) (s : σ)
    (ctx : JwtContext) (h : tokenCheckOk ctx = false) :
    getToken repo s ctx = getTokenFallback repo s := by
  unfold getToken
  cases htok : ctx.token with
  | none => rfl
  | some t => simp [h]

/-- An accepted token satisfies exactly the components of the validity
check: no extraction error, the token itself, its `Valid` flag, and the
presence of the `sub` claim. -/
theorem getToken_ok_elim {σ : Type} (repo : UserRepo σ) (s : σ)
    (ctx : JwtContext) (t : Token) (h : getToken repo s ctx = .ok t) :
    ctx.err = none ∧ ctx.token = some t ∧ t.valid = true ∧
      (lookupClaim t.claims "sub").isSome = true := by
  cases hchk : tokenCheckOk ctx with
  | false =>
    rw [getToken_eq_fallback repo s ctx hchk] at h
    exact absurd h (getTokenFallback_ne_ok repo s t)
  | true =>
    have hchk₂ := hchk
    unfold tokenCheckOk at hchk₂
    cases htok : ctx.token with
    | none => rw [htok] at hchk₂; simp at hchk₂
    | some t₂ =>
      rw [htok] at hchk₂
      simp [Bool.and_eq_true] at hchk₂
      have ht : t₂ = t := by
        unfold getToken at h
        rw [htok, hchk] at h
        simpa using h
      subst ht
      exact ⟨hchk₂.1, rfl, hchk₂.2.1, hchk₂.2.2⟩

/- ### Claim theorems -/

/-- C1: the code violates this claim. `createDefaultUser` swallows the store
error from `Put` (it logs the failure and returns nil unconditionally,
`auth.go:125-128`), so on a store whose create operation fails the
admin-creation request does NOT terminate with a 500 carrying the store
error: it falls through to the login flow and responds 401
`Invalid username or password`. The caller's 500 branch (`auth.go:103-105`)
is dead code, evidencing that propagating the error was the intent. -/
theorem c1_put_failure_swallowed :
    createDefaultUser failPutRepo "id1" 0 () "admin" "pw" = (.ok (), ()) ∧
    createAdmin failPutRepo "id1" 0 () "admin" "pw" =
      (.err 401 "Invalid username or password", ()) :=
  ⟨rfl, rfl⟩

/-- C2 counterexample: a structurally valid token whose subject claim is the
EMPTY string is accepted by the token check, refuting the claimed
non-emptiness requirement. -/
theorem c2_empty_subject_accepted :
    getToken (listRepo 0) ([] : List User)
      { err := none, token := some tkEmptySub } = .ok tkEmptySub ∧
    lookupClaim tkEmptySub.claims "sub" = some (.str "") :=
  ⟨rfl, rfl⟩

/-- C2 (amended): a bearer token is accepted by the token check iff
extraction reported no error, the token is present with its `Valid` flag set
(signature verified and unexpired), and its subject claim is PRESENT — a
presence check only, so an empty-string subject is accepted. -/
theorem c2_token_accepted_iff {σ : Type} (repo : UserRepo σ) (s : σ)
    (ctx : JwtContext) (t : Token) :
    getToken repo s ctx = .ok t ↔
      (ctx.err = none ∧ ctx.token = some t ∧ t.valid = true ∧
        (lookupClaim t.claims "sub").isSome = true) := by
  constructor
  · exact getToken_ok_elim repo s ctx t
  · rintro ⟨h₁, h₂, h₃, h₄⟩
    simp [getToken, h₂, tokenCheckOk, h₁, h₃, h₄]

/-- C2 witness: acceptance of a concrete valid token through the amended
characterization. -/
theorem c2_token_accepted_iff_witness :
    getToken (listRepo 0) ([] : List User)
      { err := none, token := some tkGood } = .ok tkGood :=
  (c2_token_accepted_iff (listRepo 0) ([] : List User)
    { err := none, token := some tkGood } tkGood).mpr ⟨rfl, rfl, rfl, rfl⟩

/-- C3 counterexample: with an empty user store, a login request with wrong
(necessarily non-matching) credentials receives the generic 401
`Invalid username or password`, not the bootstrap-required signal. -/
theorem c3_empty_store_login_generic_401 :
    handleLogin (listRepo 0) 0 ([] : List User) "admin" "wrongpw" =
      (.err 401 "Invalid username or password", []) ∧
    (handleLogin (listRepo 0) 0 ([] : List User) "admin" "wrongpw").1 ≠
      .msg 401 "no users created" :=
  ⟨rfl, by decide⟩

/-- C3 (amended): on an empty store the login handler responds the generic
401 `Invalid username or password` for every credential pair; the
bootstrap-required signal is surfaced only by the `Authenticator`
middleware on protected routes, never by the login handler. -/
theorem c3_empty_store_login_401 (now : Nat) (username password : String) :
    handleLogin (listRepo now) now ([] : List User) username password =
      (.err 401 "Invalid username or password", []) :=
  rfl

/-- C4: `validateLogin` returns absent with no error for unknown usernames
and for password mismatches, propagates infrastructure lookup errors, and
returns the user exactly on a password match. -/
theorem c4_validateLogin_cases {σ : Type} (repo : UserRepo σ) (s : σ)
    (userName password : String) :
    (repo.findByUsername s userName = .error .notFound →
      validateLogin repo s userName password = (.ok none, s)) ∧
    (∀ u, repo.findByUsername s userName = .ok u → u.password ≠ password →
      validateLogin repo s userName password = (.ok none, s)) ∧
    (∀ e, repo.findByUsername s userName = .error (.other e) →
      validateLogin repo s userName password = (.error e, s)) ∧
    (∀ u, repo.findByUsername s userName = .ok u → u.password = password →
      (validateLogin repo s userName password).1 = .ok (some u)) := by
  refine ⟨?_, ?_, ?_, ?_⟩
  · intro h
    simp [validateLogin, h]
  · intro u h hp
    simp [validateLogin, h, hp]
  · intro e h
    simp [validateLogin, h]
  · intro u h hp
    simp only [validateLogin, h, hp, ne_eq, not_true_eq_false, if_false,
      ite_false]
    split <;> rfl

/-- C4 witness: the four branches of `validateLogin` at concrete stores. -/
theorem c4_validateLogin_cases_witness :
    validateLogin (listRepo 0) [sampleUser] "nobody" "x" =
      (.ok none, [sampleUser]) ∧
    validateLogin (listRepo 0) [sampleUser] "alice" "wrong" =
      (.ok none, [sampleUser]) ∧
    validateLogin failFindRepo () "alice" "secret" =
      (.error "connection refused", ()) ∧
    (validateLogin (listRepo 0) [sampleUser] "alice" "secret").1 =
      .ok (some sampleUser) := by
  refine ⟨?_, ?_, ?_, ?_⟩
  · exact (c4_validateLogin_cases (listRepo 0) [sampleUser] "nobody" "x").1 rfl
  · exact (c4_validateLogin_cases (listRepo 0) [sampleUser] "alice" "wrong").2.1
      sampleUser rfl (by decide)
  · exact (c4_validateLogin_cases failFindRepo () "alice" "secret").2.2.1
      "connection refused" rfl
  · exact (c4_validateLogin_cases (listRepo 0) [sampleUser] "alice" "secret").2.2.2
      sampleUser rfl rfl

/-- C5: when the token check rejects a request, the middleware responds 401
with the `no users created` body exactly when the store reports zero users,
and 401 `Not authenticated` in every other case (nonzero count, or a failed
count query); these cover all rejection outcomes of the token check. -/
theorem c5_reject_taxonomy {σ : Type} (tt : Token → Except String String)
    (repo : UserRepo σ) (s : σ) (ctx : JwtContext)
    (hfail : tokenCheckOk ctx = false) :
    (repo.countAll s = .ok 0 →
      authenticator tt repo s ctx = .respond (.msg 401 "no users created")) ∧
    (∀ c, repo.countAll s = .ok c → c ≠ 0 →
      authenticator tt repo s ctx = .respond (.err 401 "Not authenticated")) ∧
    (∀ e, repo.countAll s = .error e →
      authenticator tt repo s ctx = .respond (.err 401 "Not authenticated")) := by
  have hgt := getToken_eq_fallback repo s ctx hfail
  refine ⟨?_, ?_, ?_⟩
  · intro hc
    simp [authenticator, hgt, getTokenFallback, hc]
  · intro c hc hcne
    cases c with
    | zero => exact absurd rfl hcne
    | succ n => simp [authenticator, hgt, getTokenFallback, hc]
  · intro e hc
    simp [authenticator, hgt, getTokenFallback, hc]

/-- C5 witness: the three rejection shapes at concrete stores, with no
token submitted. -/
theorem c5_reject_taxonomy_witness :
    authenticator (touchToken 0) (listRepo 0) ([] : List User)
      { err := none, token := none } = .respond (.msg 401 "no users created") ∧
    authenticator (touchToken 0) (listRepo 0) [sampleUser]
      { err := none, token := none } =
        .respond (.err 401 "Not authenticated") ∧
    authenticator (touchToken 0) errCountRepo ()
      { err := none, token := none } =
        .respond (.err 401 "Not authenticated") := by
  refine ⟨?_, ?_, ?_⟩
  · exact (c5_reject_taxonomy (touchToken 0) (listRepo 0) ([] : List User)
      { err := none, token := none } rfl).1 rfl
  · exact (c5_reject_taxonomy (touchToken 0) (listRepo 0) [sampleUser]
      { err := none, token := none } rfl).2.1 1 rfl (by decide)
  · exact (c5_reject_taxonomy (touchToken 0) errCountRepo ()
      { err := none, token := none } rfl).2.2 "count failed" rfl

/-- C6: a request whose token is accepted and carries the string subject
`sub` is forwarded with the refreshed token — signed at the current instant,
hence distinct from the submitted one — set on the auth header and the user
resolved from `sub` bound in the context; if re-signing fails, the request
is rejected 401 and not forwarded. -/
theorem c6_valid_token_forward {σ : Type} (repo : UserRepo σ) (s : σ)
    (ctx : JwtContext) (t : Token) (sub : String) (iat₀ now : Nat)
    (hget : getToken repo s ctx = .ok t)
    (hsub : lookupClaim t.claims "sub" = some (.str sub))
    (hraw : t.raw = signToken sub iat₀)
    (hiat : iat₀ ≠ now) :
    authenticator (touchToken now) repo s ctx =
      .forward (signToken sub now) (resolveUser repo s sub) ∧
    signToken sub now ≠ t.raw ∧
    (∀ tt : Token → Except String String, ∀ e, tt t = .error e →
      authenticator tt repo s ctx = .respond (.err 401 "Not authenticated")) := by
  have hvalid := (getToken_ok_elim repo s ctx t hget).2.2.1
  refine ⟨?_, ?_, ?_⟩
  · simp [authenticator, hget, contextWithUser, hsub, touchToken, hvalid]
  · rw [hraw]
    exact signToken_ne_of_iat_ne sub now iat₀ (fun he => hiat he.symm)
  · intro tt e htt
    simp [authenticator, hget, contextWithUser, hsub, htt]

/-- C6 witness: a concrete valid token for `alice`, signed at instant 0 and
refreshed at instant 1. -/
theorem c6_valid_token_forward_witness :
    authenticator (touchToken 1) (listRepo 1) ([] : List User)
      { err := none, token := some tkGood } =
        .forward (signToken "alice" 1) (resolveUser (listRepo 1) [] "alice") ∧
    signToken "alice" 1 ≠ tkGood.raw := by
  have h := c6_valid_token_forward (listRepo 1) ([] : List User)
    { err := none, token := some tkGood } tkGood "alice" 0 1 rfl rfl rfl
    (by decide)
  exact ⟨h.1, h.2.1⟩

/-- C7: the last-login update runs only on the successful-credentials path:
an unknown username or a wrong password leaves the store state unchanged,
and a password match changes the state by exactly the last-login update
(the state is untouched when that update itself fails). -/
theorem c7_lastLogin_frame {σ : Type} (repo : UserRepo σ) (s : σ)
    (userName password : String) :
    (repo.findByUsername s userName = .error .notFound →
      (validateLogin repo s userName password).2 = s) ∧
    (∀ u, repo.findByUsername s userName = .ok u → u.password ≠ password →
      (validateLogin repo s userName password).2 = s) ∧
    (∀ u, repo.findByUsername s userName = .ok u → u.password = password →
      (validateLogin repo s userName password).2 =
        match repo.updateLastLoginAt s u.id with
        | .ok s₂ => s₂
        | .error _ => s) := by
  refine ⟨?_, ?_, ?_⟩
  · intro h
    simp [validateLogin, h]
  · intro u h hp
    simp [validateLogin, h, hp]
  · intro u h hp
    simp only [validateLogin, h, hp, ne_eq, not_true_eq_false, if_false,
      ite_false]
    split <;> rfl

/-- C7 witness: failed logins against a store holding `sampleUser` leave
the store unchanged; the matching login rewrites exactly the last-login
field. -/
theorem c7_lastLogin_frame_witness :
    (validateLogin (listRepo 9) [sampleUser] "nobody" "secret").2 =
      [sampleUser] ∧
    (validateLogin (listRepo 9) [sampleUser] "alice" "wrong").2 =
      [sampleUser] ∧
    (validateLogin (listRepo 9) [sampleUser] "alice" "secret").2 =
      match (listRepo 9).updateLastLoginAt [sampleUser] sampleUser.id with
      | .ok s₂ => s₂
      | .error _ => [sampleUser] := by
  refine ⟨?_, ?_, ?_⟩
  · exact (c7_lastLogin_frame (listRepo 9) [sampleUser] "nobody" "secret").1 rfl
  · exact (c7_lastLogin_frame (listRepo 9) [sampleUser] "alice" "wrong").2.1
      sampleUser rfl (by decide)
  · exact (c7_lastLogin_frame (listRepo 9) [sampleUser] "alice" "secret").2.2
      sampleUser rfl rfl

/-- C8: admin creation twice in sequence from an empty list-backed store:
the first call responds 200 with a token for the requested username, the
second responds 403 `Cannot create another first admin` leaving the store
untouched, and the store then holds exactly one admin user carrying the
requested username. -/
theorem c8_createAdmin_twice (username password id₁ id₂ : String)
    (now₁ now₂ : Nat) :
    createAdmin (listRepo now₁) id₁ now₁ ([] : List User) username password =
      (.okLogin ("User \x27" ++ username ++ "\x27 authenticated successfully")
        (signToken username now₁) (titleCase username) username true,
       [firstAdmin id₁ username password now₁]) ∧
    createAdmin (listRepo now₂) id₂ now₂
        [firstAdmin id₁ username password now₁] username password =
      (.err 403 "Cannot create another first admin",
       [firstAdmin id₁ username password now₁]) ∧
    ([firstAdmin id₁ username password now₁].countP
        (fun u => u.isAdmin && u.userName == username)) = 1 := by
  refine ⟨?_, ?_, ?_⟩
  · simp [createAdmin, createDefaultUser, handleLogin, validateLogin,
      listRepo, createToken, firstAdmin]
  · simp [createAdmin, listRepo, firstAdmin]
  · simp [firstAdmin, List.countP, List.countP.go]

/-- C9: the subject extraction is an unchecked string cast: the token
`tkNumSub` (validity flag set, subject claim present but numeric) is
accepted by the token check, yet `contextWithUser` hits the cast failure
and the middleware outcome is the runtime type failure, not a fail-closed
401 rejection — the extraction is not total over accepted tokens. -/
theorem c9_unchecked_cast_failure :
    getToken (listRepo 0) ([] : List User)
      { err := none, token := some tkNumSub } = .ok tkNumSub ∧
    contextWithUser (listRepo 0) ([] : List User) tkNumSub.claims = none ∧
    authenticator (touchToken 1) (listRepo 0) ([] : List User)
      { err := none, token := some tkNumSub } = .castFailure :=
  ⟨rfl, rfl, rfl⟩

/-- C10: when the token check fails and the count query also fails, the
middleware returns the generic 401 `Not authenticated`: the count error is
discarded — it produces neither the bootstrap signal nor any 500-class
response. -/
theorem c10_count_error_generic {σ : Type} (tt : Token → Except String String)
    (repo : UserRepo σ) (s : σ) (ctx : JwtContext) (e : String)
    (hfail : tokenCheckOk ctx = false) (hcount : repo.countAll s = .error e) :
    getToken repo s ctx = .error (.other "invalid authentication") ∧
    authenticator tt repo s ctx = .respond (.err 401 "Not authenticated") := by
  have hgt := getToken_eq_fallback repo s ctx hfail
  constructor
  · rw [hgt]
    simp [getTokenFallback, hcount]
  · simp [authenticator, hgt, getTokenFallback, hcount]

/-- C10 witness: a missing token over a store whose count query fails. -/
theorem c10_count_error_generic_witness :
    getToken errCountRepo () { err := none, token := none } =
      .error (.other "invalid authentication") ∧
    authenticator (touchToken 0) errCountRepo ()
      { err := none, token := none } =
        .respond (.err 401 "Not authenticated") :=
  c10_count_error_generic (touchToken 0) errCountRepo ()
    { err := none, token := none } "count failed" rfl rfl

end Navidrome
